import Mathlib

/-!
# Verification of the object-detector recognition session controller

Shallow embedding of `src/App.jsx` (a React component driving a webcam
object-recognition loop) as an explicit state-transition system.

Modelling notes, tied to the source:

* React state hooks (`model`, `isRecognizing`, `facingMode`, `message`,
  `isError`, `recognitionResult`) become fields of `AppState`.
* The webcam `useEffect` has dependency list `[isRecognizing, model,
  facingMode]`; it re-runs (cleanup of the previous run, then the new body)
  exactly when one of those values changes.  Intent handlers therefore run
  `effectRun` only when they change a dependency.
* `navigator.mediaDevices.getUserMedia` is asynchronous: a call is recorded
  in `pending` and resolves later via a `resolveOk`/`resolveFail` event.
  The source does not re-check `isRecognizing` at resolution.
* `recognizeImage` is an `async` closure created afresh at every render; the
  values of `model` and `isRecognizing` it reads are the ones captured by
  the render whose effect installed the `onloadeddata` handler.  Scheduled
  animation-frame callbacks and in-flight `classify` calls therefore carry a
  `Captured` environment; the guard at the top of `recognizeImage` reads the
  captured values, not the current state.
* `model.classify` is asynchronous: a tick firing splits into the guard
  phase (`tick` event) and the continuation after `classify` settles
  (`classifyDone` event).
* JS numbers carrying probabilities are modelled as exact rationals.
* `classifications` is a ghost counter of ticks that passed the guard and
  invoked `classify` (it corresponds to the spy scheduling primitive the
  spec proposes for testing).
* Message expiry timers (`setTimeout` in `showMessage`) are modelled in the
  dedicated notification-channel machine `NotifState` below; in `AppState`
  only the currently displayed `message`/`isError` are tracked.
-/

namespace ObjectDetector

/-- `flipCamera`'s facing update: `prev === "user" ? "environment" : "user"`.
The source stores the facing mode as a string. -/
def flipFacing (f : String) : String :=
  if f = "user" then "environment" else "user"

/-- One prediction returned by `model.classify`: `{className, probability}`. -/
structure Pred where
  className : String
  probability : ℚ
deriving DecidableEq

/-- Outcome of an awaited `model.classify` call: it either throws
(`err`, caught by the `try`/`catch` in `recognizeImage`) or returns an
ordered list of predictions. -/
inductive COutcome where
  | err : COutcome
  | ok : List Pred → COutcome
deriving DecidableEq

/-- A `MediaStream` obtained from `getUserMedia`: the facing mode it was
requested with, whether its tracks are still live, and how many times
`track.stop()` has been called on it (`getTracks().forEach(t => t.stop())`
counts as one call on the stream). -/
structure StreamObj where
  facing : String
  live : Bool
  stopCalls : Nat
deriving DecidableEq

/-- A pending `getUserMedia` call: the requested facing mode plus the
values of `model` and `isRecognizing` captured by the render closure that
issued it (used by the `onloadeddata`/`recognizeImage` chain it starts). -/
structure Acq where
  facing : String
  envModel : Bool
  envRec : Bool
deriving DecidableEq

/-- The render-closure environment captured by a scheduled
`requestAnimationFrame` callback or an in-flight `classify` continuation:
the `model` and `isRecognizing` values `recognizeImage` will read. -/
structure Captured where
  envModel : Bool
  envRec : Bool
deriving DecidableEq

/-- `recognitionResult` state: `{name, confidence}`; `confidence` holds
either the `toFixed(2)` percentage string or the limited-dataset message. -/
structure RecoResult where
  name : Option String
  confidence : Option String
deriving DecidableEq

/-- The component state relevant to the recognition session controller. -/
structure AppState where
  model : Bool
  isRecognizing : Bool
  facingMode : String
  /-- every stream ever returned by `getUserMedia`, indexed by creation order -/
  streams : List StreamObj
  /-- `videoRef.current.srcObject` as an index into `streams` -/
  srcObject : Option Nat
  /-- in-flight `getUserMedia` calls -/
  pending : List Acq
  /-- scheduled animation-frame callbacks: handle and captured environment -/
  scheduled : List (Nat × Captured)
  /-- `animationFrameRef.current` (kept stale after fire/cancel, as a ref is) -/
  animationFrameRef : Option Nat
  nextHandle : Nat
  /-- in-flight `classify` calls awaiting resolution -/
  inflight : List Captured
  recognitionResult : RecoResult
  /-- ghost: number of ticks that passed the guard and called `classify` -/
  classifications : Nat
  message : String
  isError : Bool
deriving DecidableEq

/-- Message shown by `startRecognition`. -/
def startedMsg : String := "Recognition started! Looking for objects..."

/-- Message shown by `stopRecognition`. -/
def stoppedMsg : String := "Recognition stopped."

/-- Message shown by `flipCamera`. -/
def flippedMsg : String := "Camera flipped!"

/-- Message shown when `getUserMedia` rejects. -/
def camErrMsg : String := "Cannot access webcam. Check permissions."

/-- Message shown when the model finishes loading. -/
def allSetMsg : String := "All set! The AI model is loaded and ready to go."

/-- The low-confidence message written to `recognitionResult.confidence`. -/
def limitedMsg : String :=
  "⚠️ Limited dataset: This AI app is still learning and may not give accurate results for this object."

/-- `showMessage(text, error)` restricted to the displayed content (the
expiry timer is modelled in the notification-channel machine below). -/
def showMsgApp (text : String) (error : Bool) (st : AppState) : AppState :=
  { st with message := text, isError := error }

/-- `videoRef.current.srcObject.getTracks().forEach(t => t.stop())`:
stop every track of the currently attached stream (the source never clears
`srcObject` itself). -/
def stopHeldTracks (st : AppState) : AppState :=
  match st.srcObject with
  | none => st
  | some i =>
    match st.streams[i]? with
    | none => st
    | some s =>
      { st with streams := st.streams.set i { s with live := false, stopCalls := s.stopCalls + 1 } }

/-- `cancelAnimationFrame(animationFrameRef.current)`: removes that handle
from the scheduled set; the ref itself keeps its (now stale) value. -/
def cancelScheduled (st : AppState) : AppState :=
  match st.animationFrameRef with
  | none => st
  | some h => { st with scheduled := st.scheduled.filter (fun p => p.1 != h) }

/-- The teardown block that appears both in the effect cleanup and in the
effect body's `else` branch: stop held tracks, cancel the stored handle. -/
def effectTeardown (st : AppState) : AppState :=
  cancelScheduled (stopHeldTracks st)

/-- The effect body's `if` branch calls `startWebcam()`, which issues
`getUserMedia({video: {facingMode}})`; the continuation closes over the
current render's `model` and `isRecognizing`. -/
def spawnAcquisition (st : AppState) : AppState :=
  { st with pending := st.pending ++ [⟨st.facingMode, st.model, st.isRecognizing⟩] }

/-- One run of the webcam `useEffect` after a dependency change: cleanup of
the previous run (stop tracks, cancel frame), then the new body
(`if (isRecognizing && model) startWebcam() else {stop tracks; cancel}`). -/
def effectRun (st : AppState) : AppState :=
  let st1 := effectTeardown st
  if st1.isRecognizing && st1.model then spawnAcquisition st1
  else effectTeardown st1

/-- `startRecognition`: `setIsRecognizing(true)` and the started message;
the webcam effect re-runs iff `isRecognizing` actually changed. -/
def startRecognition (st : AppState) : AppState :=
  let st1 := showMsgApp startedMsg false { st with isRecognizing := true }
  if st.isRecognizing then st1 else effectRun st1

/-- `stopRecognition`: `setIsRecognizing(false)` and the stopped message;
the webcam effect re-runs iff `isRecognizing` actually changed. -/
def stopRecognition (st : AppState) : AppState :=
  let st1 := showMsgApp stoppedMsg false { st with isRecognizing := false }
  if st.isRecognizing then effectRun st1 else st1

/-- `flipCamera`: toggle `facingMode` and show the flipped message; the
facing mode always changes, so the webcam effect always re-runs. -/
def flipCamera (st : AppState) : AppState :=
  effectRun (showMsgApp flippedMsg false { st with facingMode := flipFacing st.facingMode })

/-- Completion of `mobilenet.load()` (`setModel(loadedModel)` plus the
success message); a dependency of the webcam effect changes, so it runs. -/
def modelReady (st : AppState) : AppState :=
  if st.model then st
  else effectRun (showMsgApp allSetMsg false { st with model := true })

/-- Schedule `recognizeImage` via `requestAnimationFrame` and store the
handle in `animationFrameRef.current`; the callback carries the captured
render environment. -/
def scheduleFrame (e : Captured) (st : AppState) : AppState :=
  { st with scheduled := st.scheduled ++ [(st.nextHandle, e)],
            animationFrameRef := some st.nextHandle,
            nextHandle := st.nextHandle + 1 }

/-- Successful resolution of a pending `getUserMedia` call: attach the new
stream to `videoRef.current.srcObject` and, once `loadeddata` fires,
schedule the first `recognizeImage` frame with the spawning render's
captured environment.  The source performs no `isRecognizing` re-check. -/
def stepResolveOk (i : Nat) (st : AppState) : AppState :=
  match st.pending[i]? with
  | none => st
  | some a =>
    let st1 := { st with pending := st.pending.eraseIdx i,
                         streams := st.streams ++ [⟨a.facing, true, 0⟩],
                         srcObject := some st.streams.length }
    scheduleFrame ⟨a.envModel, a.envRec⟩ st1

/-- Rejection of a pending `getUserMedia` call: the error message is shown
and `setIsRecognizing(false)` runs; the webcam effect re-runs iff
`isRecognizing` actually changed. -/
def stepResolveFail (i : Nat) (st : AppState) : AppState :=
  match st.pending[i]? with
  | none => st
  | some _ =>
    let st1 := showMsgApp camErrMsg true
      { st with pending := st.pending.eraseIdx i, isRecognizing := false }
    if st.isRecognizing then effectRun st1 else st1

/-- An animation frame fires: the handle is consumed and `recognizeImage`
runs its guard `if (!model || !videoRef.current || !isRecognizing) return;`
over the values captured by its render closure (`videoRef.current` is the
always-mounted video element).  If the guard passes, `classify` is called
(in flight from here on); if it fails the tick is a no-op and nothing is
rescheduled. -/
def stepTick (h : Nat) (st : AppState) : AppState :=
  match st.scheduled.find? (fun p => p.1 == h) with
  | none => st
  | some (_, e) =>
    let st1 := { st with scheduled := st.scheduled.filter (fun p => p.1 != h) }
    if e.envModel && e.envRec then
      { st1 with classifications := st1.classifications + 1,
                 inflight := st1.inflight ++ [e] }
    else st1

/-- `toFixed(2)` of a nonnegative number (ECMA: the integer `n` with
`n / 100` closest to the value, ties towards the larger `n`), rendered with
a two-digit fractional part.  Used as `(top.probability * 100).toFixed(2)`. -/
def jsToFixed2 (x : ℚ) : String :=
  let n : ℤ := ⌊x * 100 + 1 / 2⌋
  toString (n / 100).toNat ++ "." ++
    (if (n % 100).toNat < 10 then "0" ++ toString (n % 100).toNat
     else toString (n % 100).toNat)

/-- The body of `recognizeImage` after `classify` returned a prediction
list: `const top = predictions[0]` followed by the `0.8` threshold.  On an
empty list, reading `top.probability` throws a `TypeError` that the
surrounding `catch` swallows, so the result is left unchanged. -/
def applyPredictions (preds : List Pred) (st : AppState) : AppState :=
  match preds with
  | [] => st
  | top :: _ =>
    if top.probability > 0.8 then
      { st with recognitionResult :=
          ⟨some top.className, some (jsToFixed2 (top.probability * 100))⟩ }
    else
      { st with recognitionResult := ⟨none, some limitedMsg⟩ }

/-- An in-flight `classify` call settles: on success the threshold logic
runs inside the `try`; on an exception the `catch` swallows it; in either
case the line after the `try`/`catch` unconditionally reschedules
`recognizeImage` (same render closure, hence the same captured values). -/
def stepClassifyDone (j : Nat) (out : COutcome) (st : AppState) : AppState :=
  match st.inflight[j]? with
  | none => st
  | some e =>
    let st1 := { st with inflight := st.inflight.eraseIdx j }
    let st2 := match out with
      | .err => st1
      | .ok preds => applyPredictions preds st1
    scheduleFrame e st2

/-- Events of the session controller: the three user intents, model-load
completion, resolution of a pending camera acquisition, an animation frame
firing, and an in-flight `classify` call settling. -/
inductive Ev where
  | start
  | stop
  | flip
  | modelLoads
  | resolveOk (i : Nat)
  | resolveFail (i : Nat)
  | tick (h : Nat)
  | classifyDone (j : Nat) (out : COutcome)

/-- The transition function. -/
def step (e : Ev) (st : AppState) : AppState :=
  match e with
  | .start => startRecognition st
  | .stop => stopRecognition st
  | .flip => flipCamera st
  | .modelLoads => modelReady st
  | .resolveOk i => stepResolveOk i st
  | .resolveFail i => stepResolveFail i st
  | .tick h => stepTick h st
  | .classifyDone j out => stepClassifyDone j out st

/-- Initial component state: no model, not recognizing, facing mode
`"environment"`, empty result, nothing attached, scheduled or pending. -/
def initState : AppState :=
  ⟨false, false, "environment", [], none, [], [], none, 0, [], ⟨none, none⟩, 0, "", false⟩

/-- Run a sequence of events from the initial state. -/
def run (evs : List Ev) : AppState :=
  evs.foldl (fun st e => step e st) initState

/-- A camera stream is held iff `srcObject` points at a stream whose
tracks are live. -/
def streamHeld (st : AppState) : Bool :=
  match st.srcObject with
  | none => false
  | some i =>
    match st.streams[i]? with
    | some s => s.live
    | none => false

/-- The spec's `SessionState`, read off the component state: `Recognizing`
iff recognizing with a live attached stream, `Acquiring` iff recognizing
without one, `Error` iff idle with an error notification displayed. -/
inductive SessionSt where
  | idle
  | acquiring
  | recognizing
  | error
deriving DecidableEq

/-- Map the component state to the spec's `SessionState`. -/
def sessionState (st : AppState) : SessionSt :=
  if st.isRecognizing then
    (if streamHeld st then .recognizing else .acquiring)
  else if st.isError && !(st.message == "") then .error
  else .idle

/-- Every live stream has zero `stop()` calls (the per-stream release
invariant, established below for every reachable state). -/
def streamsOk (l : List StreamObj) : Bool :=
  l.all (fun s => !s.live || s.stopCalls == 0)

/-!
## The notification channel (`showMessage` with its expiry timer)

`showMessage(text, error)` sets the displayed message and schedules an
unconditional `setTimeout` of 3 time-units that clears the display.  The
source keeps no handle to the timeout and never calls `clearTimeout`, so
every scheduled clear fires.  Time is discrete: `delay` advances the clock
one unit and fires every timer due at the new instant.
-/

/-- State of the notification channel: displayed content, current time and
the fire times of all pending `setTimeout` clears. -/
structure NotifState where
  message : String
  isError : Bool
  now : Nat
  timers : List Nat
deriving DecidableEq

/-- `showMessage(text, error)`: display the message and schedule a clear
3 time-units from now.  No existing timer is cancelled. -/
def showMessage (text : String) (error : Bool) (st : NotifState) : NotifState :=
  { st with message := text, isError := error, timers := st.timers ++ [st.now + 3] }

/-- Fire every timer due at the current instant: each runs
`setMessage(""); setIsError(false)` unconditionally. -/
def fireDue (st : NotifState) : NotifState :=
  if st.timers.contains st.now then
    { st with message := "", isError := false,
              timers := st.timers.filter (fun t => t != st.now) }
  else st

/-- Advance the clock one unit and fire the timers due then. -/
def delay (st : NotifState) : NotifState :=
  fireDue { st with now := st.now + 1 }

/-- Notification-channel events: a post, or one unit of time passing. -/
inductive NEv where
  | post (text : String) (error : Bool)
  | delay

/-- Notification-channel transition function. -/
def nstep (e : NEv) (st : NotifState) : NotifState :=
  match e with
  | .post text error => showMessage text error st
  | .delay => delay st

/-- Initial notification-channel state: nothing displayed, no timers. -/
def ninit : NotifState := ⟨"", false, 0, []⟩

/-- Run a sequence of notification events from the initial state. -/
def nrun (evs : List NEv) : NotifState :=
  evs.foldl (fun st e => nstep e st) ninit

/-!
## The bootstrap sequencer

The first `useEffect` loads the tfjs script; its `onload` loads the
mobilenet script; that script's `onload` sets `scriptsLoaded`.  The second
`useEffect` fires when `scriptsLoaded` becomes true and starts
`mobilenet.load()`, whose resolution sets the model (or the error path
runs).  The nesting of the callbacks is reflected in the event guards.
-/

/-- Status of one asynchronous load. -/
inductive LStatus where
  | pending
  | ok
  | err
deriving DecidableEq, Fintype

/-- Bootstrap state: the two script loads, whether `mobilenet.load()` has
been started, and its outcome. -/
structure BootState where
  s1 : LStatus
  s2 : LStatus
  mStarted : Bool
  m : LStatus
deriving DecidableEq, Fintype

/-- Bootstrap events: each script load settling, the model load starting
(the second effect running after `scriptsLoaded` became true) and the
model load settling. -/
inductive BEv where
  | s1Ok
  | s1Err
  | s2Ok
  | s2Err
  | mStart
  | mOk
  | mErr
deriving DecidableEq, Fintype

/-- Bootstrap transition function.  The guards encode the callback
nesting: the mobilenet script is only requested from the tfjs `onload`,
and `mobilenet.load()` only runs once `scriptsLoaded` is set. -/
def bstep (e : BEv) (b : BootState) : BootState :=
  match e with
  | .s1Ok => if b.s1 = .pending then { b with s1 := .ok } else b
  | .s1Err => if b.s1 = .pending then { b with s1 := .err } else b
  | .s2Ok => if b.s1 = .ok ∧ b.s2 = .pending then { b with s2 := .ok } else b
  | .s2Err => if b.s1 = .ok ∧ b.s2 = .pending then { b with s2 := .err } else b
  | .mStart => if b.s2 = .ok ∧ b.mStarted = false then { b with mStarted := true } else b
  | .mOk => if b.mStarted = true ∧ b.m = .pending then { b with m := .ok } else b
  | .mErr => if b.mStarted = true ∧ b.m = .pending then { b with m := .err } else b

/-- The spec's `BootstrapState` stages, read off the bootstrap state. -/
inductive BStage where
  | loadingDependency
  | loadingModel
  | ready
  | failed
deriving DecidableEq, Fintype

/-- Map the bootstrap state to the spec's stage. -/
def bstage (b : BootState) : BStage :=
  if b.m = .ok then .ready
  else if b.s1 = .err ∨ b.s2 = .err ∨ b.m = .err then .failed
  else if b.s2 = .ok then .loadingModel
  else .loadingDependency

/-- Progress rank of a stage; the two terminal stages rank highest. -/
def stageRank : BStage → Nat
  | .loadingDependency => 0
  | .loadingModel => 1
  | .ready => 2
  | .failed => 2

/-- Initial bootstrap state: both scripts pending, model load not started. -/
def binit : BootState := ⟨.pending, .pending, false, .pending⟩

/-- Run a sequence of bootstrap events from the initial state. -/
def brun (evs : List BEv) : BootState :=
  evs.foldl (fun b e => bstep e b) binit

/-!
## Claim theorems
-/

/-- **C1.** The claimed invariant "a camera stream is held iff SessionState
is Recognizing" fails on the code: after the model loads, `start()` is
issued and `stop()` is issued while the `getUserMedia` call is still
pending, the late resolution attaches a live stream without re-checking
`isRecognizing`.  Even after a further `stop()` intent the session is Idle
while `srcObject` holds live tracks — the camera is leaked. -/
theorem c1_stream_held_while_idle :
    streamHeld (run [Ev.modelLoads, Ev.start, Ev.stop, Ev.resolveOk 0, Ev.stop]) = true ∧
    (run [Ev.modelLoads, Ev.start, Ev.stop, Ev.resolveOk 0, Ev.stop]).isRecognizing = false ∧
    sessionState (run [Ev.modelLoads, Ev.start, Ev.stop, Ev.resolveOk 0, Ev.stop]) =
      SessionSt.idle := by
  decide

/-- **C2.** Classification ticks keep executing after `stop()`: if `stop()`
arrives while a `classify` call is in flight, the guard of the rescheduled
tick reads the values captured by its render closure (still recognizing),
so the loop reschedules and classifies again.  After the trace below one
classification ran before `stop()` and a second one runs after it, with yet
another `classify` in flight. -/
theorem c2_tick_executes_after_stop :
    (run [Ev.modelLoads, Ev.start, Ev.resolveOk 0, Ev.tick 0, Ev.stop]).classifications = 1 ∧
    (run [Ev.modelLoads, Ev.start, Ev.resolveOk 0, Ev.tick 0, Ev.stop]).isRecognizing = false ∧
    (run [Ev.modelLoads, Ev.start, Ev.resolveOk 0, Ev.tick 0, Ev.stop,
          Ev.classifyDone 0 COutcome.err, Ev.tick 1]).classifications = 2 ∧
    (run [Ev.modelLoads, Ev.start, Ev.resolveOk 0, Ev.tick 0, Ev.stop,
          Ev.classifyDone 0 COutcome.err, Ev.tick 1]).isRecognizing = false ∧
    (run [Ev.modelLoads, Ev.start, Ev.resolveOk 0, Ev.tick 0, Ev.stop,
          Ev.classifyDone 0 COutcome.err, Ev.tick 1]).inflight = [⟨true, true⟩] := by
  decide

/-- **C3 counterexample.** Calling `start()` while the model is absent does
not keep the session Idle and does not emit a "model not ready"
notification: `startRecognition` unconditionally sets `isRecognizing` and
shows the started message (no "model not ready" message exists in the
source); the session state becomes Acquiring. -/
theorem c3_start_without_model_leaves_idle :
    (run [Ev.start]).isRecognizing = true ∧
    (run [Ev.start]).message = startedMsg ∧
    sessionState (run [Ev.start]) = SessionSt.acquiring ∧
    (run [Ev.start]).pending = [] := by
  decide

/-- **C5 counterexample.** Posting "B" 2 units after "A" does not invalidate
A's expiry timer: the timer fires at A's original expiry (time 3) and
clears B only 1 unit after it was posted, instead of B staying visible for
its full 3-unit window. -/
theorem c5_superseded_timer_still_fires :
    (nrun [NEv.post "A" false, NEv.delay, NEv.delay, NEv.post "B" false]).message = "B" ∧
    (nrun [NEv.post "A" false, NEv.delay, NEv.delay, NEv.post "B" false,
           NEv.delay]).message = "" := by
  decide

/-- **C8 counterexample.** A camera acquisition that resolves successfully
after `stop()` does not make the session enter Recognizing (nor Error): the
stream is attached and the first tick scheduled while the session is Idle,
a third outcome the claim excludes. -/
theorem c8_resolution_without_recognizing :
    sessionState (run [Ev.modelLoads, Ev.start, Ev.stop, Ev.resolveOk 0]) = SessionSt.idle ∧
    streamHeld (run [Ev.modelLoads, Ev.start, Ev.stop, Ev.resolveOk 0]) = true ∧
    (run [Ev.modelLoads, Ev.start, Ev.stop, Ev.resolveOk 0]).scheduled =
      [(0, ⟨true, true⟩)] := by
  decide

/-!
### Structural helper lemmas
-/

/-- `stopHeldTracks` only rewrites the `streams` field. -/
lemma stopHeldTracks_proj (st : AppState) :
    ∃ l, stopHeldTracks st = { st with streams := l } := by
  unfold stopHeldTracks
  split
  · exact ⟨st.streams, rfl⟩
  · split
    · exact ⟨st.streams, rfl⟩
    · exact ⟨_, rfl⟩

/-- `cancelScheduled` only rewrites the `scheduled` field. -/
lemma cancelScheduled_proj (st : AppState) :
    ∃ l, cancelScheduled st = { st with scheduled := l } := by
  unfold cancelScheduled
  split
  · exact ⟨st.scheduled, rfl⟩
  · exact ⟨_, rfl⟩

/-- `effectTeardown` only rewrites the `streams` and `scheduled` fields. -/
lemma effectTeardown_proj (st : AppState) :
    ∃ l sc, effectTeardown st = { st with streams := l, scheduled := sc } := by
  unfold effectTeardown
  obtain ⟨l, hl⟩ := stopHeldTracks_proj st
  obtain ⟨sc, hsc⟩ := cancelScheduled_proj (stopHeldTracks st)
  rw [hsc, hl]
  exact ⟨l, sc, rfl⟩

/-- `effectRun` branches on the current `isRecognizing && model`. -/
lemma effectRun_eq (st : AppState) :
    effectRun st =
      (if st.isRecognizing && st.model then spawnAcquisition (effectTeardown st)
       else effectTeardown (effectTeardown st)) := by
  unfold effectRun
  obtain ⟨l, sc, h⟩ := effectTeardown_proj st
  rw [h]

lemma effectTeardown_pending (st : AppState) : (effectTeardown st).pending = st.pending := by
  obtain ⟨l, sc, h⟩ := effectTeardown_proj st
  rw [h]

lemma effectTeardown_isRecognizing (st : AppState) :
    (effectTeardown st).isRecognizing = st.isRecognizing := by
  obtain ⟨l, sc, h⟩ := effectTeardown_proj st
  rw [h]

lemma effectTeardown_model (st : AppState) : (effectTeardown st).model = st.model := by
  obtain ⟨l, sc, h⟩ := effectTeardown_proj st
  rw [h]

lemma effectTeardown_message (st : AppState) : (effectTeardown st).message = st.message := by
  obtain ⟨l, sc, h⟩ := effectTeardown_proj st
  rw [h]

lemma effectTeardown_isError (st : AppState) : (effectTeardown st).isError = st.isError := by
  obtain ⟨l, sc, h⟩ := effectTeardown_proj st
  rw [h]

lemma effectTeardown_facingMode (st : AppState) :
    (effectTeardown st).facingMode = st.facingMode := by
  obtain ⟨l, sc, h⟩ := effectTeardown_proj st
  rw [h]

lemma effectTeardown_srcObject (st : AppState) :
    (effectTeardown st).srcObject = st.srcObject := by
  obtain ⟨l, sc, h⟩ := effectTeardown_proj st
  rw [h]

/-- **C3 (amended).** Calling `start()` while the model is not loaded sets
`isRecognizing` to true (the UI leaves Idle) and emits the generic
"Recognition started!" notification — there is no "model not ready"
notification in the source — but no stream acquisition begins, because the
webcam effect requires the model to be present. -/
theorem c3_start_without_model_no_acquisition (st : AppState) (h : st.model = false) :
    (startRecognition st).pending = st.pending ∧
    (startRecognition st).isRecognizing = true ∧
    (startRecognition st).message = startedMsg := by
  unfold startRecognition showMsgApp
  by_cases hr : st.isRecognizing
  · simp [hr]
  · simp [hr, effectRun_eq, h, effectTeardown_pending, effectTeardown_isRecognizing,
          effectTeardown_message]

/-- Witness for `c3_start_without_model_no_acquisition` at the initial
state (the model has not loaded yet). -/
theorem c3_start_without_model_no_acquisition_witness :
    (startRecognition initState).pending = initState.pending ∧
    (startRecognition initState).isRecognizing = true ∧
    (startRecognition initState).message = startedMsg :=
  c3_start_without_model_no_acquisition initState rfl

/-- **C6.** A tick whose `classify` call fails — by throwing
(`COutcome.err`), or by returning an empty prediction list, on which
reading `predictions[0].probability` throws a `TypeError` caught by the
same `catch` — leaves `recognitionResult` unchanged, posts no
notification, does not crash, and still schedules the next tick. -/
theorem c6_inference_error_keeps_result (st : AppState) (j : Nat) (e : Captured)
    (out : COutcome) (hj : st.inflight[j]? = some e)
    (hout : out = COutcome.err ∨ out = COutcome.ok []) :
    (stepClassifyDone j out st).recognitionResult = st.recognitionResult ∧
    (stepClassifyDone j out st).message = st.message ∧
    (stepClassifyDone j out st).isError = st.isError ∧
    (stepClassifyDone j out st).scheduled = st.scheduled ++ [(st.nextHandle, e)] ∧
    (stepClassifyDone j out st).animationFrameRef = some st.nextHandle := by
  rcases hout with rfl | rfl <;>
    simp [stepClassifyDone, hj, scheduleFrame, applyPredictions]

/-- Witness for `c6_inference_error_keeps_result`: a failing classify on
the state reached by starting recognition and letting the first tick pass
its guard. -/
theorem c6_inference_error_keeps_result_witness :
    (stepClassifyDone 0 COutcome.err
        (run [Ev.modelLoads, Ev.start, Ev.resolveOk 0, Ev.tick 0])).recognitionResult =
      (run [Ev.modelLoads, Ev.start, Ev.resolveOk 0, Ev.tick 0]).recognitionResult ∧
    (stepClassifyDone 0 COutcome.err
        (run [Ev.modelLoads, Ev.start, Ev.resolveOk 0, Ev.tick 0])).message =
      (run [Ev.modelLoads, Ev.start, Ev.resolveOk 0, Ev.tick 0]).message ∧
    (stepClassifyDone 0 COutcome.err
        (run [Ev.modelLoads, Ev.start, Ev.resolveOk 0, Ev.tick 0])).isError =
      (run [Ev.modelLoads, Ev.start, Ev.resolveOk 0, Ev.tick 0]).isError ∧
    (stepClassifyDone 0 COutcome.err
        (run [Ev.modelLoads, Ev.start, Ev.resolveOk 0, Ev.tick 0])).scheduled =
      (run [Ev.modelLoads, Ev.start, Ev.resolveOk 0, Ev.tick 0]).scheduled ++
        [((run [Ev.modelLoads, Ev.start, Ev.resolveOk 0, Ev.tick 0]).nextHandle, ⟨true, true⟩)] ∧
    (stepClassifyDone 0 COutcome.err
        (run [Ev.modelLoads, Ev.start, Ev.resolveOk 0, Ev.tick 0])).animationFrameRef =
      some (run [Ev.modelLoads, Ev.start, Ev.resolveOk 0, Ev.tick 0]).nextHandle :=
  c6_inference_error_keeps_result _ 0 ⟨true, true⟩ COutcome.err (by decide) (Or.inl rfl)

/-- **C4.** On a successful tick, the head of the prediction list (the
highest-confidence prediction, since `classify` returns them in descending
confidence order) is taken; strictly above the 0.8 threshold the result
becomes its label with the confidence times 100 rendered `toFixed(2)`,
otherwise (at or below 0.8) the label is cleared and the fixed
low-confidence message shown. -/
theorem c4_confidence_threshold (st : AppState) (j : Nat) (e : Captured)
    (top : Pred) (rest : List Pred) (hj : st.inflight[j]? = some e) :
    (stepClassifyDone j (COutcome.ok (top :: rest)) st).recognitionResult =
      (if top.probability > 0.8 then
        ⟨some top.className, some (jsToFixed2 (top.probability * 100))⟩
       else ⟨none, some limitedMsg⟩) := by
  simp only [stepClassifyDone, hj, applyPredictions, scheduleFrame]
  split <;> rfl

/-- Witness for `c4_confidence_threshold`: confidence 0.91 yields label
`"cat"` rendered `"91.00"`; confidences 0.5 and exactly 0.8 yield no label
and the low-confidence message. -/
theorem c4_confidence_threshold_witness :
    (stepClassifyDone 0 (COutcome.ok [⟨"cat", 91/100⟩])
        (run [Ev.modelLoads, Ev.start, Ev.resolveOk 0, Ev.tick 0])).recognitionResult =
      ⟨some "cat", some "91.00"⟩ ∧
    (stepClassifyDone 0 (COutcome.ok [⟨"cat", 1/2⟩])
        (run [Ev.modelLoads, Ev.start, Ev.resolveOk 0, Ev.tick 0])).recognitionResult =
      ⟨none, some limitedMsg⟩ ∧
    (stepClassifyDone 0 (COutcome.ok [⟨"cat", 8/10⟩])
        (run [Ev.modelLoads, Ev.start, Ev.resolveOk 0, Ev.tick 0])).recognitionResult =
      ⟨none, some limitedMsg⟩ := by
  refine ⟨?_, ?_, ?_⟩
  · rw [c4_confidence_threshold _ 0 ⟨true, true⟩ _ _ (by decide)]
    rw [if_pos (by norm_num)]
    have h : jsToFixed2 ((91 : ℚ)/100 * 100) = "91.00" := by
      unfold jsToFixed2
      have hf : ⌊((91 : ℚ)/100 * 100) * 100 + 1 / 2⌋ = (9100 : ℤ) := by norm_num
      rw [hf]; decide
    rw [h]
  · rw [c4_confidence_threshold _ 0 ⟨true, true⟩ _ _ (by decide)]
    rw [if_neg (by norm_num)]
  · rw [c4_confidence_threshold _ 0 ⟨true, true⟩ _ _ (by decide)]
    rw [if_neg (by norm_num)]

/-- **C5 (amended).** Posting a message displays it immediately and, when
no timer is pending, it stays visible for 2 further time-units and
auto-clears at exactly 3.  Posting "B" while "A" is still displayed
replaces the content immediately, but A's expiry timer is *not*
invalidated: it still fires at A's original expiry and clears whatever is
displayed then — here it clears B two units early. -/
theorem c5_post_replaces_but_timer_survives (st : NotifState) (text : String)
    (error : Bool) (h : st.timers = []) :
    (showMessage text error st).message = text ∧
    (showMessage text error st).isError = error ∧
    (delay (delay (showMessage text error st))).message = text ∧
    (delay (delay (delay (showMessage text error st)))).message = "" ∧
    ∀ t2 e2,
      (showMessage t2 e2 (delay (delay (showMessage text error st)))).message = t2 ∧
      (delay (showMessage t2 e2 (delay (delay (showMessage text error st))))).message = "" := by
  simp [showMessage, delay, fireDue, h, List.contains]

/-- Witness for `c5_post_replaces_but_timer_survives`: posting "A" into the
fresh channel, then "B" two units later; "B" is displayed immediately and
cleared by A's surviving timer one unit later. -/
theorem c5_post_replaces_but_timer_survives_witness :
    (showMessage "A" false ninit).message = "A" ∧
    (showMessage "B" false (delay (delay (showMessage "A" false ninit)))).message = "B" ∧
    (delay (showMessage "B" false (delay (delay (showMessage "A" false ninit))))).message = "" :=
  ⟨(c5_post_replaces_but_timer_survives ninit "A" false rfl).1,
   ((c5_post_replaces_but_timer_survives ninit "A" false rfl).2.2.2.2 "B" false).1,
   ((c5_post_replaces_but_timer_survives ninit "A" false rfl).2.2.2.2 "B" false).2⟩

/-!
### The per-stream release invariant

A stream whose tracks are live has never received a `stop()` call; this is
established for every reachable state and used by the flip claim.
-/

lemma streamsOk_stopHeldTracks (st : AppState) (h : streamsOk st.streams = true) :
    streamsOk (stopHeldTracks st).streams = true := by
  unfold stopHeldTracks
  split
  · exact h
  · split
    · exact h
    · simp only [streamsOk, List.all_eq_true] at h ⊢
      intro x hx
      rcases List.mem_or_eq_of_mem_set hx with hx' | rfl
      · exact h x hx'
      · rfl

lemma cancelScheduled_streams (st : AppState) :
    (cancelScheduled st).streams = st.streams := by
  obtain ⟨l, h⟩ := cancelScheduled_proj st
  rw [h]

lemma effectTeardown_streams (st : AppState) :
    (effectTeardown st).streams = (stopHeldTracks st).streams := by
  unfold effectTeardown
  rw [cancelScheduled_streams]

lemma streamsOk_effectTeardown (st : AppState) (h : streamsOk st.streams = true) :
    streamsOk (effectTeardown st).streams = true := by
  rw [effectTeardown_streams]
  exact streamsOk_stopHeldTracks st h

lemma streamsOk_effectRun (st : AppState) (h : streamsOk st.streams = true) :
    streamsOk (effectRun st).streams = true := by
  rw [effectRun_eq]
  split
  · show streamsOk (effectTeardown st).streams = true
    exact streamsOk_effectTeardown st h
  · exact streamsOk_effectTeardown _ (streamsOk_effectTeardown st h)

lemma applyPredictions_streams (preds : List Pred) (st : AppState) :
    (applyPredictions preds st).streams = st.streams := by
  unfold applyPredictions
  split
  · rfl
  · split <;> rfl

/-- The release invariant is preserved by every event. -/
lemma streamsOk_step (e : Ev) (st : AppState) (h : streamsOk st.streams = true) :
    streamsOk (step e st).streams = true := by
  cases e with
  | start =>
    show streamsOk (startRecognition st).streams = true
    simp only [startRecognition]
    by_cases hb : st.isRecognizing = true
    · rw [if_pos hb]
      exact h
    · rw [if_neg hb]
      exact streamsOk_effectRun _ h
  | stop =>
    show streamsOk (stopRecognition st).streams = true
    simp only [stopRecognition]
    by_cases hb : st.isRecognizing = true
    · rw [if_pos hb]
      exact streamsOk_effectRun _ h
    · rw [if_neg hb]
      exact h
  | flip =>
    show streamsOk (flipCamera st).streams = true
    exact streamsOk_effectRun _ h
  | modelLoads =>
    show streamsOk (modelReady st).streams = true
    simp only [modelReady]
    by_cases hb : st.model = true
    · rw [if_pos hb]
      exact h
    · rw [if_neg hb]
      exact streamsOk_effectRun _ h
  | resolveOk i =>
    show streamsOk (stepResolveOk i st).streams = true
    rcases hp : st.pending[i]? with _ | a
    · simp only [stepResolveOk, hp]
      exact h
    · simp only [stepResolveOk, hp, scheduleFrame]
      simp only [streamsOk, List.all_eq_true] at h ⊢
      intro x hx
      rcases List.mem_append.mp hx with hx' | hx'
      · exact h x hx'
      · rcases List.mem_singleton.mp hx' with rfl
        rfl
  | resolveFail i =>
    show streamsOk (stepResolveFail i st).streams = true
    rcases hp : st.pending[i]? with _ | a
    · simp only [stepResolveFail, hp]
      exact h
    · simp only [stepResolveFail, hp]
      by_cases hb : st.isRecognizing = true
      · rw [if_pos hb]
        exact streamsOk_effectRun _ h
      · rw [if_neg hb]
        exact h
  | tick hd =>
    show streamsOk (stepTick hd st).streams = true
    rcases hf : st.scheduled.find? (fun p => p.1 == hd) with _ | pe
    · simp only [stepTick, hf]
      exact h
    · rcases pe with ⟨hdl, e⟩
      simp only [stepTick, hf]
      by_cases hb : (e.envModel && e.envRec) = true
      · rw [if_pos hb]
        exact h
      · rw [if_neg hb]
        exact h
  | classifyDone j out =>
    show streamsOk (stepClassifyDone j out st).streams = true
    rcases hj : st.inflight[j]? with _ | e
    · simp only [stepClassifyDone, hj]
      exact h
    · simp only [stepClassifyDone, hj, scheduleFrame]
      cases out with
      | err => exact h
      | ok preds =>
        show streamsOk (applyPredictions preds _).streams = true
        rw [applyPredictions_streams]
        exact h

/-- The release invariant holds initially. -/
lemma streamsOk_initState : streamsOk initState.streams = true := rfl

/-- The release invariant holds in every reachable state. -/
lemma streamsOk_run (evs : List Ev) : streamsOk (run evs).streams = true := by
  suffices hgen : ∀ (l : List Ev) (st : AppState), streamsOk st.streams = true →
      streamsOk (l.foldl (fun s e => step e s) st).streams = true from
    hgen evs initState streamsOk_initState
  intro l
  induction l with
  | nil => intro st hst; exact hst
  | cons e t ih =>
    intro st hst
    exact ih _ (streamsOk_step e st hst)

/-- **C7.** A `flip()` issued while the session is Recognizing (live stream
`s` attached at index `i`, model present) performs a fresh acquisition with
the opposite facing mode — a new `getUserMedia` request, not an in-place
mutation — and the previously held stream receives exactly one `stop()`
call (its count goes from the invariant 0 to 1), leaving no live track. -/
theorem c7_flip_fresh_acquisition (st : AppState) (i : Nat) (s : StreamObj)
    (hok : streamsOk st.streams = true)
    (hr : st.isRecognizing = true) (hm : st.model = true)
    (ho : st.srcObject = some i) (hi : st.streams[i]? = some s) (hl : s.live = true) :
    (flipCamera st).pending = st.pending ++ [⟨flipFacing st.facingMode, true, true⟩] ∧
    (flipCamera st).streams[i]? = some ⟨s.facing, false, 1⟩ ∧
    streamHeld (flipCamera st) = false ∧
    (flipCamera st).facingMode = flipFacing st.facingMode := by
  have h0 : s.stopCalls = 0 := by
    have hs := (List.all_eq_true.mp hok) s (List.getElem?_mem hi)
    rw [hl] at hs
    simpa using hs
  have hflip : flipCamera st =
      spawnAcquisition (effectTeardown
        (showMsgApp flippedMsg false { st with facingMode := flipFacing st.facingMode })) := by
    unfold flipCamera
    rw [effectRun_eq, if_pos]
    simp [showMsgApp, hr, hm]
  have hstreams :
      (effectTeardown (showMsgApp flippedMsg false
        { st with facingMode := flipFacing st.facingMode })).streams =
      st.streams.set i ⟨s.facing, false, 1⟩ := by
    rw [effectTeardown_streams]
    simp only [stopHeldTracks, showMsgApp, ho, hi]
    rw [h0]
  have hlt : i < st.streams.length := (List.getElem?_eq_some.mp hi).1
  refine ⟨?_, ?_, ?_, ?_⟩
  · rw [hflip]
    show (effectTeardown _).pending ++
        [⟨(effectTeardown _).facingMode, (effectTeardown _).model,
          (effectTeardown _).isRecognizing⟩] = _
    rw [effectTeardown_pending, effectTeardown_facingMode, effectTeardown_model,
        effectTeardown_isRecognizing]
    simp [showMsgApp, hr, hm]
  · rw [hflip]
    show (effectTeardown _).streams[i]? = _
    rw [hstreams]
    exact List.getElem?_set_eq_of_lt _ (by simpa using hlt)
  · rw [hflip]
    show streamHeld _ = false
    unfold streamHeld
    have hsrc : (spawnAcquisition (effectTeardown
        (showMsgApp flippedMsg false
          { st with facingMode := flipFacing st.facingMode }))).srcObject = some i := by
      show (effectTeardown _).srcObject = some i
      rw [effectTeardown_srcObject]
      exact ho
    rw [hsrc]
    show (match (effectTeardown _).streams[i]? with
          | some s => s.live
          | none => false) = false
    rw [hstreams, List.getElem?_set_eq_of_lt _ (by simpa using hlt)]
  · rw [hflip]
    show (effectTeardown _).facingMode = _
    rw [effectTeardown_facingMode]
    rfl

/-- Witness for `c7_flip_fresh_acquisition`: flipping from the Recognizing
state reached by loading the model, starting, and the acquisition
resolving. -/
theorem c7_flip_fresh_acquisition_witness :
    (flipCamera (run [Ev.modelLoads, Ev.start, Ev.resolveOk 0])).pending =
      (run [Ev.modelLoads, Ev.start, Ev.resolveOk 0]).pending ++
        [⟨flipFacing (run [Ev.modelLoads, Ev.start, Ev.resolveOk 0]).facingMode, true, true⟩] ∧
    (flipCamera (run [Ev.modelLoads, Ev.start, Ev.resolveOk 0])).streams[0]? =
      some ⟨"environment", false, 1⟩ ∧
    streamHeld (flipCamera (run [Ev.modelLoads, Ev.start, Ev.resolveOk 0])) = false ∧
    (flipCamera (run [Ev.modelLoads, Ev.start, Ev.resolveOk 0])).facingMode =
      flipFacing (run [Ev.modelLoads, Ev.start, Ev.resolveOk 0]).facingMode :=
  c7_flip_fresh_acquisition (run [Ev.modelLoads, Ev.start, Ev.resolveOk 0]) 0
    ⟨"environment", true, 0⟩ (by decide) (by decide) (by decide) (by decide) (by decide)
    (by decide)

lemma effectRun_isRecognizing (st : AppState) :
    (effectRun st).isRecognizing = st.isRecognizing := by
  rw [effectRun_eq]
  split
  · show (effectTeardown st).isRecognizing = _
    exact effectTeardown_isRecognizing st
  · rw [effectTeardown_isRecognizing, effectTeardown_isRecognizing]

lemma effectRun_isError (st : AppState) : (effectRun st).isError = st.isError := by
  rw [effectRun_eq]
  split
  · show (effectTeardown st).isError = _
    exact effectTeardown_isError st
  · rw [effectTeardown_isError, effectTeardown_isError]

lemma effectRun_message (st : AppState) : (effectRun st).message = st.message := by
  rw [effectRun_eq]
  split
  · show (effectTeardown st).message = _
    exact effectTeardown_message st
  · rw [effectTeardown_message, effectTeardown_message]

lemma effectRun_facingMode (st : AppState) : (effectRun st).facingMode = st.facingMode := by
  rw [effectRun_eq]
  split
  · show (effectTeardown st).facingMode = _
    exact effectTeardown_facingMode st
  · rw [effectTeardown_facingMode, effectTeardown_facingMode]

/-- **C8 (amended).** A pending camera acquisition that resolves while the
session is still active (`isRecognizing`) enters Recognizing and schedules
the first classification tick; a rejected acquisition always leaves the
session not recognizing with the camera error notification displayed (the
Error state).  (A successful resolution after `stop()` instead attaches
the stream while Idle — see the counterexample.) -/
theorem c8_acquisition_two_outcomes (st : AppState) (i : Nat) (a : Acq)
    (hp : st.pending[i]? = some a) :
    (st.isRecognizing = true →
      sessionState (stepResolveOk i st) = SessionSt.recognizing ∧
      (stepResolveOk i st).scheduled =
        st.scheduled ++ [(st.nextHandle, ⟨a.envModel, a.envRec⟩)]) ∧
    ((stepResolveFail i st).isRecognizing = false ∧
     (stepResolveFail i st).isError = true ∧
     (stepResolveFail i st).message = camErrMsg ∧
     sessionState (stepResolveFail i st) = SessionSt.error) := by
  constructor
  · intro hr
    constructor
    · simp only [stepResolveOk, hp, scheduleFrame, sessionState, streamHeld]
      simp [hr]
    · simp only [stepResolveOk, hp, scheduleFrame]
  · simp only [stepResolveFail, hp]
    by_cases hb : st.isRecognizing = true
    · rw [if_pos hb]
      refine ⟨?_, ?_, ?_, ?_⟩
      · rw [effectRun_isRecognizing]
        rfl
      · rw [effectRun_isError]
        rfl
      · rw [effectRun_message]
        rfl
      · simp [sessionState, effectRun_isRecognizing, effectRun_isError,
              effectRun_message, showMsgApp, camErrMsg]
    · rw [if_neg hb]
      refine ⟨rfl, rfl, rfl, ?_⟩
      simp [sessionState, showMsgApp, camErrMsg]

/-- Witness for `c8_acquisition_two_outcomes`: the acquisition spawned by
`start()` after the model loaded, resolving (or failing) immediately. -/
theorem c8_acquisition_two_outcomes_witness :
    sessionState (stepResolveOk 0 (run [Ev.modelLoads, Ev.start])) = SessionSt.recognizing ∧
    (stepResolveOk 0 (run [Ev.modelLoads, Ev.start])).scheduled =
      (run [Ev.modelLoads, Ev.start]).scheduled ++
        [((run [Ev.modelLoads, Ev.start]).nextHandle, ⟨true, true⟩)] ∧
    (stepResolveFail 0 (run [Ev.modelLoads, Ev.start])).isRecognizing = false ∧
    (stepResolveFail 0 (run [Ev.modelLoads, Ev.start])).isError = true ∧
    (stepResolveFail 0 (run [Ev.modelLoads, Ev.start])).message = camErrMsg ∧
    sessionState (stepResolveFail 0 (run [Ev.modelLoads, Ev.start])) = SessionSt.error :=
  have h := c8_acquisition_two_outcomes (run [Ev.modelLoads, Ev.start]) 0
    ⟨"environment", true, true⟩ (by decide)
  ⟨(h.1 (by decide)).1, (h.1 (by decide)).2, h.2.1, h.2.2.1, h.2.2.2.1, h.2.2.2.2⟩

/-- One bootstrap event preserves "model load started implies the scripts
finished loading". -/
lemma bstep_dep_before_model (b : BootState) (e : BEv)
    (h : b.mStarted = true → b.s2 = LStatus.ok) :
    (bstep e b).mStarted = true → (bstep e b).s2 = LStatus.ok := by
  revert h
  revert b e
  decide

/-- The dependency-before-model invariant holds along every trace. -/
lemma brun_dep_before_model (evs : List BEv) :
    (brun evs).mStarted = true → (brun evs).s2 = LStatus.ok := by
  suffices hgen : ∀ (l : List BEv) (b : BootState), (b.mStarted = true → b.s2 = LStatus.ok) →
      ((l.foldl (fun b e => bstep e b) b).mStarted = true →
        (l.foldl (fun b e => bstep e b) b).s2 = LStatus.ok) from
    hgen evs binit (by decide)
  intro l
  induction l with
  | nil => intro b hb; exact hb
  | cons e t ih =>
    intro b hb
    exact ih _ (bstep_dep_before_model b e hb)

/-- **C9.** Bootstrap stages execute strictly in sequence and never
regress: the stage rank is monotone under every event, the Ready stage
(model set) is never left, and along every trace the model load has only
ever begun after the dependency (script) loads completed. -/
theorem c9_bootstrap_monotone :
    (∀ (b : BootState) (e : BEv), stageRank (bstage b) ≤ stageRank (bstage (bstep e b))) ∧
    (∀ (b : BootState) (e : BEv), bstage b = BStage.ready → bstage (bstep e b) = BStage.ready) ∧
    (∀ evs : List BEv, (brun evs).mStarted = true → (brun evs).s2 = LStatus.ok) :=
  ⟨by decide, by decide, brun_dep_before_model⟩

/-- Witness for `c9_bootstrap_monotone`: rank monotonicity at the initial
state, Ready absorption at the all-ok state, and the dependency invariant
on the trace that starts the model load. -/
theorem c9_bootstrap_monotone_witness :
    stageRank (bstage binit) ≤ stageRank (bstage (bstep BEv.s1Ok binit)) ∧
    bstage (bstep BEv.s1Ok ⟨LStatus.ok, LStatus.ok, true, LStatus.ok⟩) = BStage.ready ∧
    (brun [BEv.s1Ok, BEv.s2Ok, BEv.mStart]).s2 = LStatus.ok :=
  ⟨c9_bootstrap_monotone.1 binit BEv.s1Ok,
   c9_bootstrap_monotone.2.1 ⟨LStatus.ok, LStatus.ok, true, LStatus.ok⟩ BEv.s1Ok (by decide),
   c9_bootstrap_monotone.2.2 [BEv.s1Ok, BEv.s2Ok, BEv.mStart] (by decide)⟩

lemma applyPredictions_facingMode (preds : List Pred) (st : AppState) :
    (applyPredictions preds st).facingMode = st.facingMode := by
  unfold applyPredictions
  split
  · rfl
  · split <;> rfl

/-- No event other than `flip` changes the facing mode, and `flip` applies
`flipFacing`. -/
lemma step_facingMode (e : Ev) (st : AppState) :
    (step e st).facingMode = st.facingMode ∨
    (step e st).facingMode = flipFacing st.facingMode := by
  cases e with
  | start =>
    show (startRecognition st).facingMode = st.facingMode ∨ _
    left
    simp only [startRecognition]
    by_cases hb : st.isRecognizing = true
    · rw [if_pos hb]
      rfl
    · rw [if_neg hb, effectRun_facingMode]
      rfl
  | stop =>
    show (stopRecognition st).facingMode = st.facingMode ∨ _
    left
    simp only [stopRecognition]
    by_cases hb : st.isRecognizing = true
    · rw [if_pos hb, effectRun_facingMode]
      rfl
    · rw [if_neg hb]
      rfl
  | flip =>
    right
    show (flipCamera st).facingMode = flipFacing st.facingMode
    unfold flipCamera
    rw [effectRun_facingMode]
    rfl
  | modelLoads =>
    show (modelReady st).facingMode = st.facingMode ∨ _
    left
    simp only [modelReady]
    by_cases hb : st.model = true
    · rw [if_pos hb]
    · rw [if_neg hb, effectRun_facingMode]
      rfl
  | resolveOk i =>
    show (stepResolveOk i st).facingMode = st.facingMode ∨ _
    left
    rcases hp : st.pending[i]? with _ | a
    · simp only [stepResolveOk, hp]
    · simp only [stepResolveOk, hp, scheduleFrame]
  | resolveFail i =>
    show (stepResolveFail i st).facingMode = st.facingMode ∨ _
    left
    rcases hp : st.pending[i]? with _ | a
    · simp only [stepResolveFail, hp]
    · simp only [stepResolveFail, hp]
      by_cases hb : st.isRecognizing = true
      · rw [if_pos hb, effectRun_facingMode]
        rfl
      · rw [if_neg hb]
        rfl
  | tick hd =>
    show (stepTick hd st).facingMode = st.facingMode ∨ _
    left
    rcases hf : st.scheduled.find? (fun p => p.1 == hd) with _ | pe
    · simp only [stepTick, hf]
    · rcases pe with ⟨hdl, e⟩
      simp only [stepTick, hf]
      by_cases hb : (e.envModel && e.envRec) = true
      · rw [if_pos hb]
      · rw [if_neg hb]
  | classifyDone j out =>
    show (stepClassifyDone j out st).facingMode = st.facingMode ∨ _
    left
    rcases hj : st.inflight[j]? with _ | e
    · simp only [stepClassifyDone, hj]
    · simp only [stepClassifyDone, hj, scheduleFrame]
      cases out with
      | err => rfl
      | ok preds =>
        show (applyPredictions preds _).facingMode = _
        rw [applyPredictions_facingMode]

/-- `flipFacing` sends every string into the two legal facing modes. -/
lemma flipFacing_mem (f : String) :
    flipFacing f = "user" ∨ flipFacing f = "environment" := by
  unfold flipFacing
  split
  · right
    rfl
  · left
    rfl

/-- Every reachable state has one of the two legal facing modes. -/
lemma run_facing_legal (evs : List Ev) :
    (run evs).facingMode = "user" ∨ (run evs).facingMode = "environment" := by
  suffices hgen : ∀ (l : List Ev) (st : AppState),
      (st.facingMode = "user" ∨ st.facingMode = "environment") →
      ((l.foldl (fun s e => step e s) st).facingMode = "user" ∨
       (l.foldl (fun s e => step e s) st).facingMode = "environment") from
    hgen evs initState (Or.inr rfl)
  intro l
  induction l with
  | nil => intro st hst; exact hst
  | cons e t ih =>
    intro st hst
    refine ih _ ?_
    rcases step_facingMode e st with he | he
    · rw [he]
      exact hst
    · rw [he]
      exact flipFacing_mem _

/-- `flipFacing` is an involution on the two legal facing modes. -/
lemma flipFacing_involution (f : String)
    (h : f = "user" ∨ f = "environment") : flipFacing (flipFacing f) = f := by
  rcases h with rfl | rfl <;> decide

/-- **C10.** In every reachable state the facing mode is exactly one of
`"user"` and `"environment"` (a flip never produces any other value), and
applying `flip()` twice restores the facing mode to its prior value. -/
theorem c10_flip_involution :
    (∀ evs : List Ev,
      (run evs).facingMode = "user" ∨ (run evs).facingMode = "environment") ∧
    (∀ evs : List Ev,
      (flipCamera (flipCamera (run evs))).facingMode = (run evs).facingMode) := by
  refine ⟨run_facing_legal, fun evs => ?_⟩
  have h1 : (flipCamera (flipCamera (run evs))).facingMode =
      flipFacing (flipFacing (run evs).facingMode) := by
    unfold flipCamera
    rw [effectRun_facingMode]
    show flipFacing (flipCamera (run evs)).facingMode = _
    unfold flipCamera
    rw [effectRun_facingMode]
    rfl
  rw [h1]
  exact flipFacing_involution _ (run_facing_legal evs)

end ObjectDetector
